import Mathlib

/-!
Verification of the GC safepoint manager (`cdc/owner` gc package of tiflow).

The Go source is embedded shallowly:

* wall-clock instants and durations (`time.Time`, `time.Duration`) become `Int`
  nanoseconds, matching Go's nanosecond-valued `time.Duration`;
* the `uint64` timestamp arithmetic of `checkpointTs - 1` is modelled on `Nat`
  with an explicit reduction modulo `2 ^ 64`, so unsigned wrap-around is
  faithful;
* a call to `TryUpdateGCSafePoint` happens at a single logical instant `now`
  (every `time.Now()` / `time.Since` inside one call reads that instant);
* the two external collaborators are modelled by explicit call outcomes: the
  upstream safepoint service's reply is a `SetSafepointResult` argument (either
  the effective safepoint, or an error that may be a context cancellation), and
  the PD time oracle's reply is an `Option Int` argument;
* each operation returns its result together with the (possibly updated)
  manager state, and `TryUpdateGCSafePoint` additionally reports whether an
  upstream push was attempted, so rate-limiting can be observed.
-/

namespace TiflowGC

/-- Modulus of Go's `uint64`. -/
def UINT64_MOD : Nat := 2 ^ 64

/-- Go's `x - 1` on `uint64`: subtraction of one with unsigned wrap-around,
so `0 - 1 = 2 ^ 64 - 1`. -/
def u64sub1 (x : Nat) : Nat := (x + (UINT64_MOD - 1)) % UINT64_MOD

/-- One nanosecond, the unit of Go durations. -/
def timeNanosecond : Int := 1

/-- Go's `time.Millisecond` in nanoseconds. -/
def timeMillisecond : Int := 1000000

/-- Go's `time.Second` in nanoseconds. -/
def timeSecond : Int := 1000000000

/-- Go's `time.Minute` in nanoseconds. -/
def timeMinute : Int := 60 * timeSecond

/-- Go's `time.Hour` in nanoseconds. -/
def timeHour : Int := 60 * timeMinute

/-- The package-level constant `gcTTL = 24 * time.Hour`: the retention window
for data of a failed changefeed. -/
def gcTTL : Int := 24 * timeHour

/-- The package-level `gcSafepointUpdateInterval = 1 * time.Minute`, the
minimum interval between non-forced safepoint pushes (its failpoint-based
test override is out of scope). -/
def gcSafepointUpdateInterval : Int := 1 * timeMinute

/-- From `tikv/client-go`'s `oracle` package: `GetTimeFromTS` extracts the
physical wall-clock component of a TSO timestamp (`ts >> 18` milliseconds)
and turns it into an instant, here in nanoseconds. -/
def GetTimeFromTS (ts : Nat) : Int := ((ts >>> 18 : Nat) : Int) * timeMillisecond

/-- The `gcManager` struct. `pdClient` and `pdClock` are external
collaborators, modelled as explicit call-outcome arguments of the operations;
`gcTTL` is the configured `serverConfig.GcTTL` in seconds (an `int64`);
the three mutable fields are wall-clock instants in nanoseconds and the
cached effective safepoint (`uint64`). -/
structure gcManager where
  gcServiceID : String
  gcTTL : Int
  lastUpdatedTime : Int
  lastSucceededTime : Int
  lastSafePointTs : Nat
deriving Repr, DecidableEq

/-- Outcome of the upstream call `SetServiceGCSafepoint`: either the effective
cluster-wide safepoint, or an error; the `cancelled` flag records whether the
error is the caller-supplied context's cancellation (the manager's code never
inspects this flag). -/
inductive SetSafepointResult where
  | ok (actual : Nat)
  | err (cancelled : Bool)
deriving Repr, DecidableEq

/-- The error values the manager can return: the wrap
`cerror.ErrUpdateServiceSafepointFailed.Wrap(err)` (carrying whether the
wrapped error was a cancellation) and
`cerror.ErrSnapshotLostByGC.GenWithStackByArgs(checkpointTs, lastSafePointTs)`. -/
inductive GcError where
  | ErrUpdateServiceSafepointFailed (cancelled : Bool)
  | ErrSnapshotLostByGC (checkpointTs : Nat) (lastSafePointTs : Nat)
deriving Repr, DecidableEq

deriving instance DecidableEq for Except

/-- Result of one `TryUpdateGCSafePoint` call: the returned error value, the
manager state after the call, and the safepoint sent to the upstream service
(`none` when the call was skipped and no upstream push was attempted). -/
structure TryUpdateResult where
  result : Except GcError Unit
  state : gcManager
  pushed : Option Nat
deriving Repr, DecidableEq

/-- `(*gcManager).TryUpdateGCSafePoint` at instant `now`, with the upstream
service's reply `push` (consulted only when a push is attempted):
skip when inside the rate-limit window and not forced; otherwise record the
attempt time, push, and on failure return the wrapped fatal error exactly when
`ttlSeconds` have elapsed since the last success, on success cache the
effective safepoint and refresh the success time. -/
def TryUpdateGCSafePoint (m : gcManager) (now : Int) (checkpointTs : Nat)
    (forceUpdate : Bool) (push : SetSafepointResult) : TryUpdateResult :=
  if now - m.lastUpdatedTime < gcSafepointUpdateInterval ∧ forceUpdate = false then
    { result := Except.ok (), state := m, pushed := none }
  else
    match push with
    | SetSafepointResult.err cancelled =>
        if now - m.lastSucceededTime ≥ timeSecond * m.gcTTL then
          { result := Except.error (GcError.ErrUpdateServiceSafepointFailed cancelled),
            state := { m with lastUpdatedTime := now }, pushed := some checkpointTs }
        else
          { result := Except.ok (),
            state := { m with lastUpdatedTime := now }, pushed := some checkpointTs }
    | SetSafepointResult.ok actual =>
        { result := Except.ok (),
          state :=
            { m with
              lastUpdatedTime := now
              lastSucceededTime := now
              lastSafePointTs := actual },
          pushed := some checkpointTs }

/-- `(*gcManager).CheckStaleCheckpointTs`: fail with the snapshot-lost error
when `checkpointTs - 1` (unsigned) is below the cached safepoint; the state
is returned unchanged since the method writes no field. -/
def CheckStaleCheckpointTs (m : gcManager) (checkpointTs : Nat) :
    Except GcError Unit × gcManager :=
  let gcSafepointUpperBound := u64sub1 checkpointTs
  if gcSafepointUpperBound < m.lastSafePointTs then
    (Except.error (GcError.ErrSnapshotLostByGC checkpointTs m.lastSafePointTs), m)
  else
    (Except.ok (), m)

/-- `(*gcManager).IgnoreFailedChangeFeed`, with the PD clock's reply `pdTime`
(`none` models the `CurrentTime()` error): `false` on oracle failure,
otherwise `true` iff the instant of `checkpointTs - 1` is more than `gcTTL`
(the 24-hour constant) behind `pdTime`; the state is returned unchanged since
the method writes no field. -/
def IgnoreFailedChangeFeed (m : gcManager) (pdTime : Option Int)
    (checkpointTs : Nat) : Bool × gcManager :=
  match pdTime with
  | none => (false, m)
  | some t =>
      let gcSafepointUpperBound := u64sub1 checkpointTs
      (decide (t - GetTimeFromTS gcSafepointUpperBound > gcTTL), m)

/-! Helper lemmas shared by the claim theorems. -/

lemma tryUpdate_skip (m : gcManager) (now : Int) (checkpointTs : Nat)
    (push : SetSafepointResult)
    (h : now - m.lastUpdatedTime < gcSafepointUpdateInterval) :
    TryUpdateGCSafePoint m now checkpointTs false push =
      { result := Except.ok (), state := m, pushed := none } := by
  unfold TryUpdateGCSafePoint
  rw [if_pos ⟨h, rfl⟩]

lemma tryUpdate_attempt (m : gcManager) (now : Int) (checkpointTs : Nat)
    (forceUpdate : Bool) (push : SetSafepointResult)
    (h : ¬(now - m.lastUpdatedTime < gcSafepointUpdateInterval ∧ forceUpdate = false)) :
    (TryUpdateGCSafePoint m now checkpointTs forceUpdate push).pushed
      = some checkpointTs ∧
    (TryUpdateGCSafePoint m now checkpointTs forceUpdate push).state.lastUpdatedTime
      = now := by
  unfold TryUpdateGCSafePoint
  rw [if_neg h]
  cases push with
  | err cancelled =>
      dsimp only
      by_cases hg : now - m.lastSucceededTime ≥ timeSecond * m.gcTTL
      · rw [if_pos hg]; exact ⟨rfl, rfl⟩
      · rw [if_neg hg]; exact ⟨rfl, rfl⟩
  | ok actual => exact ⟨rfl, rfl⟩

/-! Concrete manager states used by the witness theorems. -/

/-- A concrete manager state: fresh manager, TTL 86400 s, both clocks at 0,
no cached safepoint. -/
def mW : gcManager :=
  { gcServiceID := "ticdc-default-gc", gcTTL := 86400, lastUpdatedTime := 0,
    lastSucceededTime := 0, lastSafePointTs := 0 }

/-- A concrete manager state with a nonzero cached safepoint. -/
def mW2 : gcManager :=
  { gcServiceID := "ticdc-default-gc", gcTTL := 86400, lastUpdatedTime := 0,
    lastSucceededTime := 0, lastSafePointTs := 500 }

/-! The claim theorems. -/

/-- C1: `CheckStaleCheckpointTs` fails — with the snapshot-lost error carrying
the requested checkpoint and the current safepoint — exactly when the unsigned
upper bound `checkpointTs - 1` is below the stored `lastSafePointTs`, and the
call never changes the manager state. -/
theorem checkStale_fails_iff (m : gcManager) (cp : Nat) :
    ((CheckStaleCheckpointTs m cp).1 =
        Except.error (GcError.ErrSnapshotLostByGC cp m.lastSafePointTs)
      ↔ u64sub1 cp < m.lastSafePointTs)
    ∧ (CheckStaleCheckpointTs m cp).2 = m := by
  unfold CheckStaleCheckpointTs
  dsimp only
  by_cases h : u64sub1 cp < m.lastSafePointTs
  · rw [if_pos h]
    simpa using h
  · rw [if_neg h]
    simpa using h

/-- C5: `lastSafePointTs` changes only as the direct result of a successful
upstream push reply, and then it is set to that reply's effective value; every
other path of `TryUpdateGCSafePoint` and every call to `CheckStaleCheckpointTs`
or `IgnoreFailedChangeFeed` leaves the manager state's `lastSafePointTs` (and
for the latter two, the whole state) unchanged. -/
theorem lastSafePointTs_only_from_success (m : gcManager) (now : Int)
    (cp cp2 cp3 : Nat) (forceUpdate : Bool) (push : SetSafepointResult)
    (pdTime : Option Int) :
    ((TryUpdateGCSafePoint m now cp forceUpdate push).state.lastSafePointTs
        = m.lastSafePointTs
      ∨ ((TryUpdateGCSafePoint m now cp forceUpdate push).pushed = some cp
          ∧ push = SetSafepointResult.ok
              ((TryUpdateGCSafePoint m now cp forceUpdate push).state.lastSafePointTs)))
    ∧ (CheckStaleCheckpointTs m cp2).2 = m
    ∧ (IgnoreFailedChangeFeed m pdTime cp3).2 = m := by
  refine ⟨?_, ?_, ?_⟩
  · unfold TryUpdateGCSafePoint
    by_cases hs : now - m.lastUpdatedTime < gcSafepointUpdateInterval ∧ forceUpdate = false
    · rw [if_pos hs]
      exact Or.inl rfl
    · rw [if_neg hs]
      cases push with
      | err cancelled =>
          dsimp only
          by_cases hg : now - m.lastSucceededTime ≥ timeSecond * m.gcTTL
          · rw [if_pos hg]; exact Or.inl rfl
          · rw [if_neg hg]; exact Or.inl rfl
      | ok actual => exact Or.inr ⟨rfl, rfl⟩
  · unfold CheckStaleCheckpointTs
    dsimp only
    by_cases h : u64sub1 cp2 < m.lastSafePointTs
    · rw [if_pos h]
    · rw [if_neg h]
  · unfold IgnoreFailedChangeFeed
    cases pdTime <;> rfl

/-- C6: `IgnoreFailedChangeFeed` returns `false` whenever the PD time oracle
fails; on oracle success it returns `true` exactly when the instant of
`checkpointTs - 1` lies more than the fixed 24-hour `gcTTL` constant behind
the oracle time; and the returned flag never depends on the configured
per-manager `gcTTL` (seconds) field. -/
theorem ignoreFailedChangeFeed_spec (m : gcManager) (cp cp2 : Nat)
    (t ttl2 : Int) :
    (IgnoreFailedChangeFeed m none cp2).1 = false
    ∧ ((IgnoreFailedChangeFeed m (some t) cp).1 = true
        ↔ gcTTL < t - GetTimeFromTS (u64sub1 cp))
    ∧ (IgnoreFailedChangeFeed { m with gcTTL := ttl2 } (some t) cp).1
        = (IgnoreFailedChangeFeed m (some t) cp).1
    ∧ gcTTL = 24 * timeHour := by
  refine ⟨rfl, ?_, rfl, rfl⟩
  unfold IgnoreFailedChangeFeed
  dsimp only
  exact decide_eq_true_iff

/-- C7: a call with `forceUpdate = true` always attempts an upstream push,
however little time has passed since `lastUpdatedTime`. -/
theorem tryUpdate_force_always_pushes (m : gcManager) (now : Int) (cp : Nat)
    (push : SetSafepointResult) :
    (TryUpdateGCSafePoint m now cp true push).pushed = some cp := by
  have h : ¬(now - m.lastUpdatedTime < gcSafepointUpdateInterval
      ∧ (true : Bool) = false) := by simp
  exact (tryUpdate_attempt m now cp true push h).1

/-- C2: a call inside the rate-limit window with `forceUpdate = false` returns
success immediately, without an upstream push and without touching the state;
hence of two calls within one `gcSafepointUpdateInterval` (the first of them
eligible) exactly the first pushes. -/
theorem tryUpdate_rate_limited_single_push (m : gcManager) (t1 t2 : Int)
    (cp1 cp2 : Nat) (po1 po2 : SetSafepointResult)
    (h1 : gcSafepointUpdateInterval ≤ t1 - m.lastUpdatedTime)
    (h2 : t2 - t1 < gcSafepointUpdateInterval) :
    (TryUpdateGCSafePoint m t1 cp1 false po1).pushed = some cp1
    ∧ TryUpdateGCSafePoint (TryUpdateGCSafePoint m t1 cp1 false po1).state
        t2 cp2 false po2
      = { result := Except.ok (),
          state := (TryUpdateGCSafePoint m t1 cp1 false po1).state,
          pushed := none } := by
  have hne : ¬(t1 - m.lastUpdatedTime < gcSafepointUpdateInterval
      ∧ (false : Bool) = false) := fun hc => absurd hc.1 (not_lt.mpr h1)
  obtain ⟨hp, hu⟩ := tryUpdate_attempt m t1 cp1 false po1 hne
  refine ⟨hp, ?_⟩
  apply tryUpdate_skip
  rw [hu]
  exact h2

/-- C2 witness: concrete fresh manager, first call at 60 s (eligible), second
call at 90 s (inside the window): one push, then a no-op skip. -/
theorem tryUpdate_rate_limited_single_push_witness :
    gcSafepointUpdateInterval ≤ (60000000000 : Int) - mW.lastUpdatedTime
    ∧ (90000000000 : Int) - 60000000000 < gcSafepointUpdateInterval
    ∧ ((TryUpdateGCSafePoint mW 60000000000 10 false
          (SetSafepointResult.ok 10)).pushed = some 10
       ∧ TryUpdateGCSafePoint
            (TryUpdateGCSafePoint mW 60000000000 10 false
              (SetSafepointResult.ok 10)).state 90000000000 20 false
            (SetSafepointResult.ok 20)
          = { result := Except.ok (),
              state := (TryUpdateGCSafePoint mW 60000000000 10 false
                (SetSafepointResult.ok 10)).state,
              pushed := none }) :=
  ⟨by decide, by decide,
    tryUpdate_rate_limited_single_push mW 60000000000 90000000000 10 20
      (SetSafepointResult.ok 10) (SetSafepointResult.ok 20)
      (by decide) (by decide)⟩

/-- C3: when a non-skipped push fails, the call returns the wrapped fatal
safepoint-update error exactly when at least `gcTTL` seconds have elapsed since
`lastSucceededTime`, returns success when strictly less have, and in both cases
`lastUpdatedTime` has been set to the attempt instant. -/
theorem tryUpdate_failure_fatal_iff (m : gcManager) (now : Int) (cp : Nat)
    (forceUpdate : Bool) (cancelled : Bool)
    (h : ¬(now - m.lastUpdatedTime < gcSafepointUpdateInterval
        ∧ forceUpdate = false)) :
    ((TryUpdateGCSafePoint m now cp forceUpdate
        (SetSafepointResult.err cancelled)).result
      = Except.error (GcError.ErrUpdateServiceSafepointFailed cancelled)
      ↔ timeSecond * m.gcTTL ≤ now - m.lastSucceededTime)
    ∧ ((TryUpdateGCSafePoint m now cp forceUpdate
          (SetSafepointResult.err cancelled)).result = Except.ok ()
        ↔ now - m.lastSucceededTime < timeSecond * m.gcTTL)
    ∧ (TryUpdateGCSafePoint m now cp forceUpdate
        (SetSafepointResult.err cancelled)).state.lastUpdatedTime = now := by
  unfold TryUpdateGCSafePoint
  rw [if_neg h]
  dsimp only
  by_cases hg : now - m.lastSucceededTime ≥ timeSecond * m.gcTTL
  · rw [if_pos hg]
    refine ⟨?_, ?_, rfl⟩
    · simpa using hg
    · simpa using not_lt.mpr hg
  · rw [if_neg hg]
    refine ⟨?_, ?_, rfl⟩
    · simpa using hg
    · simpa using lt_of_not_ge hg

/-- C3 witness: forced push at 5 s with both clocks started at 0 and a TTL of
86400 s: the failure is inside the grace window, so the call succeeds, and the
attempt time is recorded. -/
theorem tryUpdate_failure_fatal_iff_witness :
    ¬((5000000000 : Int) - mW.lastUpdatedTime < gcSafepointUpdateInterval
        ∧ (true : Bool) = false)
    ∧ (((TryUpdateGCSafePoint mW 5000000000 10 true
          (SetSafepointResult.err false)).result
        = Except.error (GcError.ErrUpdateServiceSafepointFailed false)
        ↔ timeSecond * mW.gcTTL ≤ (5000000000 : Int) - mW.lastSucceededTime)
      ∧ ((TryUpdateGCSafePoint mW 5000000000 10 true
            (SetSafepointResult.err false)).result = Except.ok ()
          ↔ (5000000000 : Int) - mW.lastSucceededTime < timeSecond * mW.gcTTL)
      ∧ (TryUpdateGCSafePoint mW 5000000000 10 true
          (SetSafepointResult.err false)).state.lastUpdatedTime = 5000000000) :=
  ⟨by decide,
    tryUpdate_failure_fatal_iff mW 5000000000 10 true false (by decide)⟩

/-- C4: when a non-skipped push succeeds with effective safepoint `actual`,
the call stores `actual` as `lastSafePointTs`, refreshes `lastSucceededTime`
to the call instant, and returns success — for every `actual`, in particular
when `actual` exceeds the proposed checkpoint. -/
theorem tryUpdate_success_stores_actual (m : gcManager) (now : Int)
    (cp actual : Nat) (forceUpdate : Bool)
    (h : ¬(now - m.lastUpdatedTime < gcSafepointUpdateInterval
        ∧ forceUpdate = false)) :
    TryUpdateGCSafePoint m now cp forceUpdate (SetSafepointResult.ok actual)
      = { result := Except.ok (),
          state :=
            { m with
              lastUpdatedTime := now
              lastSucceededTime := now
              lastSafePointTs := actual },
          pushed := some cp } := by
  unfold TryUpdateGCSafePoint
  rw [if_neg h]

/-- C4 witness: forced push proposing checkpoint 100 answered with effective
safepoint 200 (above the proposal): the call still succeeds and stores 200. -/
theorem tryUpdate_success_stores_actual_witness :
    ¬((5000000000 : Int) - mW.lastUpdatedTime < gcSafepointUpdateInterval
        ∧ (true : Bool) = false)
    ∧ TryUpdateGCSafePoint mW 5000000000 100 true (SetSafepointResult.ok 200)
        = { result := Except.ok (),
            state :=
              { mW with
                lastUpdatedTime := 5000000000
                lastSucceededTime := 5000000000
                lastSafePointTs := 200 },
            pushed := some 100 } :=
  ⟨by decide,
    tryUpdate_success_stores_actual mW 5000000000 100 200 true (by decide)⟩

/-- C9: for checkpoint 0 the unsigned upper bound `0 - 1` wraps to
`2 ^ 64 - 1`, which is not below any `uint64` safepoint, so
`CheckStaleCheckpointTs` succeeds whatever the stored safepoint is. -/
theorem checkStale_zero_checkpoint_ok (m : gcManager)
    (h : m.lastSafePointTs < UINT64_MOD) :
    u64sub1 0 = UINT64_MOD - 1
    ∧ (CheckStaleCheckpointTs m 0).1 = Except.ok () := by
  have h0 : u64sub1 0 = UINT64_MOD - 1 := by
    unfold u64sub1
    rw [Nat.zero_add]
    exact Nat.mod_eq_of_lt (Nat.sub_lt (Nat.pos_pow_of_pos 64 (by decide))
      (by decide))
  refine ⟨h0, ?_⟩
  unfold CheckStaleCheckpointTs
  dsimp only
  rw [if_neg (by rw [h0]; exact not_lt.mpr (Nat.le_pred_of_lt h))]

/-- C9 witness: with a cached safepoint of 500, checkpoint 0 passes the
staleness check. -/
theorem checkStale_zero_checkpoint_ok_witness :
    mW2.lastSafePointTs < UINT64_MOD
    ∧ (u64sub1 0 = UINT64_MOD - 1
       ∧ (CheckStaleCheckpointTs mW2 0).1 = Except.ok ()) :=
  ⟨by decide, checkStale_zero_checkpoint_ok mW2 (by decide)⟩

/-- C10: a rate-limited skip is a complete no-op — success, no push, the state
(`lastUpdatedTime` included) exactly unchanged — so the window is measured from
the last actually attempted push, and any later call whose distance from that
attempt reaches `gcSafepointUpdateInterval` does push. -/
theorem tryUpdate_skip_is_noop (m : gcManager) (now now2 : Int)
    (cp cp2 : Nat) (push push2 : SetSafepointResult)
    (h : now - m.lastUpdatedTime < gcSafepointUpdateInterval)
    (h2 : gcSafepointUpdateInterval ≤ now2 - m.lastUpdatedTime) :
    TryUpdateGCSafePoint m now cp false push
      = { result := Except.ok (), state := m, pushed := none }
    ∧ (TryUpdateGCSafePoint m now2 cp2 false push2).pushed = some cp2 := by
  refine ⟨tryUpdate_skip m now cp push h, ?_⟩
  exact (tryUpdate_attempt m now2 cp2 false push2
    (fun hc => absurd hc.1 (not_lt.mpr h2))).1

/-- C10 witness: fresh manager, a call at 30 s is skipped without any state
change, and a call at 60 s pushes. -/
theorem tryUpdate_skip_is_noop_witness :
    (30000000000 : Int) - mW.lastUpdatedTime < gcSafepointUpdateInterval
    ∧ gcSafepointUpdateInterval ≤ (60000000000 : Int) - mW.lastUpdatedTime
    ∧ (TryUpdateGCSafePoint mW 30000000000 10 false (SetSafepointResult.ok 10)
        = { result := Except.ok (), state := mW, pushed := none }
       ∧ (TryUpdateGCSafePoint mW 60000000000 20 false
            (SetSafepointResult.ok 20)).pushed = some 20) :=
  ⟨by decide, by decide,
    tryUpdate_skip_is_noop mW 30000000000 60000000000 10 20
      (SetSafepointResult.ok 10) (SetSafepointResult.ok 20)
      (by decide) (by decide)⟩

/-- C8 counterexample: a manager still inside its TTL grace window whose push
is cancelled by the caller's context. The push is attempted, yet the call
returns plain success — no cancellation-specific error — refuting the claim as
stated. -/
theorem cancelled_push_returns_ok_counterexample :
    (TryUpdateGCSafePoint mW2 60000000000 100 false
        (SetSafepointResult.err true)).result = Except.ok ()
    ∧ (TryUpdateGCSafePoint mW2 60000000000 100 false
        (SetSafepointResult.err true)).pushed = some 100 := by decide

/-- C8 amended: a cancelled in-flight push is handled by the generic failure
path — it never mutates `lastSucceededTime` or `lastSafePointTs`, and the call
returns success while strictly inside the TTL grace window, and the generic
safepoint-update failure (wrapping the cancellation) once the window has
elapsed, rather than a cancellation-specific error. -/
theorem cancelled_push_failure_path (m : gcManager) (now : Int) (cp : Nat)
    (forceUpdate : Bool)
    (h : ¬(now - m.lastUpdatedTime < gcSafepointUpdateInterval
        ∧ forceUpdate = false)) :
    (TryUpdateGCSafePoint m now cp forceUpdate
        (SetSafepointResult.err true)).state.lastSucceededTime
      = m.lastSucceededTime
    ∧ (TryUpdateGCSafePoint m now cp forceUpdate
        (SetSafepointResult.err true)).state.lastSafePointTs
      = m.lastSafePointTs
    ∧ ((TryUpdateGCSafePoint m now cp forceUpdate
          (SetSafepointResult.err true)).result = Except.ok ()
        ↔ now - m.lastSucceededTime < timeSecond * m.gcTTL)
    ∧ ((TryUpdateGCSafePoint m now cp forceUpdate
          (SetSafepointResult.err true)).result
        = Except.error (GcError.ErrUpdateServiceSafepointFailed true)
        ↔ timeSecond * m.gcTTL ≤ now - m.lastSucceededTime) := by
  unfold TryUpdateGCSafePoint
  rw [if_neg h]
  dsimp only
  by_cases hg : now - m.lastSucceededTime ≥ timeSecond * m.gcTTL
  · rw [if_pos hg]
    refine ⟨rfl, rfl, ?_, ?_⟩
    · simpa using not_lt.mpr hg
    · simpa using hg
  · rw [if_neg hg]
    refine ⟨rfl, rfl, ?_, ?_⟩
    · simpa using lt_of_not_ge hg
    · simpa using hg

/-- C8 amended witness: forced cancelled push at 100000 s with the last
success at 0 and a TTL of 86400 s — the grace window has elapsed, so the call
returns the generic wrapped failure, and the success-tracking fields are
untouched. -/
theorem cancelled_push_failure_path_witness :
    ¬((100000000000000 : Int) - mW.lastUpdatedTime < gcSafepointUpdateInterval
        ∧ (true : Bool) = false)
    ∧ ((TryUpdateGCSafePoint mW 100000000000000 100 true
          (SetSafepointResult.err true)).state.lastSucceededTime
        = mW.lastSucceededTime
      ∧ (TryUpdateGCSafePoint mW 100000000000000 100 true
          (SetSafepointResult.err true)).state.lastSafePointTs
        = mW.lastSafePointTs
      ∧ ((TryUpdateGCSafePoint mW 100000000000000 100 true
            (SetSafepointResult.err true)).result = Except.ok ()
          ↔ (100000000000000 : Int) - mW.lastSucceededTime
              < timeSecond * mW.gcTTL)
      ∧ ((TryUpdateGCSafePoint mW 100000000000000 100 true
            (SetSafepointResult.err true)).result
          = Except.error (GcError.ErrUpdateServiceSafepointFailed true)
          ↔ timeSecond * mW.gcTTL
              ≤ (100000000000000 : Int) - mW.lastSucceededTime)) :=
  ⟨by decide,
    cancelled_push_failure_path mW 100000000000000 100 true (by decide)⟩

end TiflowGC
